import Mathlib

/-!
# Verification of the neurodetect signal pipeline

Shallow embedding of the core of `src/components/MetalDetector.tsx`:
the sliding-window sample buffer (`handleNewReading`), the feature
extractor (`extractFeatures`), and the threshold classifier (the body of
the `useEffect` hook guarded by `dataBuffer.length < WINDOW_SIZE`).

JavaScript numbers are modelled as real numbers (ℝ); the NaN comparison
semantics relevant to the error-handling claims is modelled separately by
the `JsNum` type at the end of the definitions section.
-/

namespace Neurodetect

open Finset

/-- `MetalType` enum from `src/types.ts`. -/
inductive MetalType where
  | IRON
  | STAINLESS_STEEL
  | ALUMINUM
  | NO_METAL
  | UNKNOWN
  deriving DecidableEq, Repr

/-- `SensorData` from `src/types.ts`: axis components, magnitude, timestamp. -/
structure SensorData where
  x : ℝ
  y : ℝ
  z : ℝ
  total : ℝ
  timestamp : ℝ

/-- The `features` record of `PredictionResult` from `src/types.ts`. -/
structure Features where
  mean : ℝ
  std : ℝ
  max : ℝ
  fftMean : ℝ
  fftMax : ℝ

/-- `PredictionResult` from `src/types.ts`. -/
structure PredictionResult where
  metalType : MetalType
  confidence : ℝ
  features : Features

/-- `const WINDOW_SIZE = 50` (MetalDetector.tsx line 10). -/
def WINDOW_SIZE : ℕ := 50

/-- `handleNewReading` (MetalDetector.tsx lines 65-73): append the reading,
and if the buffer now exceeds `WINDOW_SIZE`, `shift()` the oldest entry. -/
def handleNewReading (prev : List SensorData) (reading : SensorData) :
    List SensorData :=
  let newBuffer := prev ++ [reading]
  if WINDOW_SIZE < newBuffer.length then newBuffer.drop 1 else newBuffer

/-- Feeding a sequence of readings one at a time into an initially empty
buffer, as the acquisition sources do via `handleNewReading`. -/
def pushAll (readings : List SensorData) : List SensorData :=
  readings.foldl handleNewReading []

/-- JavaScript `Array.prototype.reduce((a, b) => a + b)` with no initial
value: seeds the accumulator with the first element.  On `[]` JavaScript
throws a TypeError; we return 0 there, and every theorem that depends on
this value carries a nonempty hypothesis. -/
def reduceNoInit : List ℝ → ℝ
  | [] => 0
  | x :: xs => xs.foldl (· + ·) x

/-- JavaScript `Math.max(...arr)` over a list: folds binary `max` over the
elements.  On `[]` JavaScript yields `-Infinity`; we return 0 there, and the
code only applies it to nonempty or emptiness-guarded lists. -/
def jsMaxSpread : List ℝ → ℝ
  | [] => 0
  | x :: xs => xs.foldl Max.max x

/-- `mean` in `extractFeatures` (line 79):
`magnitudes.reduce((a, b) => a + b, 0) / N`. -/
noncomputable def jsMean (magnitudes : List ℝ) : ℝ :=
  magnitudes.foldl (· + ·) 0 / magnitudes.length

/-- `std` in `extractFeatures` (line 80):
`Math.sqrt(magnitudes.map(x => Math.pow(x - mean, 2)).reduce((a, b) => a + b) / N)`. -/
noncomputable def jsStd (magnitudes : List ℝ) : ℝ :=
  Real.sqrt
    (reduceNoInit (magnitudes.map fun x => (x - jsMean magnitudes) ^ 2) /
      magnitudes.length)

/-- `centered` in `extractFeatures` (line 83): `magnitudes.map(x => x - mean)`. -/
noncomputable def centeredList (magnitudes : List ℝ) : List ℝ :=
  magnitudes.map fun x => x - jsMean magnitudes

/-- The `fftMagnitudes` loop of `extractFeatures` (lines 84-95): for each
bin `k < ⌊N/2⌋` accumulate `real += centered[n]·cos(-2πkn/N)` and
`imag += centered[n]·sin(-2πkn/N)` over `n < N` and push
`sqrt(real·real + imag·imag)`.  `centered` has the same length `N` as
`magnitudes`, so `N` is taken from the centered list. -/
noncomputable def dftSpectrum (centered : List ℝ) : List ℝ :=
  (List.range (centered.length / 2)).map fun (k : ℕ) =>
    let real := ∑ n in Finset.range centered.length,
      centered.getD n 0 * Real.cos (-2 * Real.pi * k * n / centered.length)
    let imag := ∑ n in Finset.range centered.length,
      centered.getD n 0 * Real.sin (-2 * Real.pi * k * n / centered.length)
    Real.sqrt (real * real + imag * imag)

/-- `fftMean` (line 97): `fftMagnitudes.length > 0 ?
fftMagnitudes.reduce((a, b) => a + b, 0) / fftMagnitudes.length : 0`. -/
noncomputable def jsFftMean (fftMagnitudes : List ℝ) : ℝ :=
  if 0 < fftMagnitudes.length then
    fftMagnitudes.foldl (· + ·) 0 / fftMagnitudes.length
  else 0

/-- `fftMax` (line 98):
`fftMagnitudes.length > 0 ? Math.max(...fftMagnitudes) : 0`. -/
noncomputable def jsFftMax (fftMagnitudes : List ℝ) : ℝ :=
  if 0 < fftMagnitudes.length then jsMaxSpread fftMagnitudes else 0

/-- Body of `extractFeatures` (lines 75-101) after taking
`magnitudes = buffer.map(d => d.total)`. -/
noncomputable def featuresOfMagnitudes (magnitudes : List ℝ) : Features :=
  { mean := jsMean magnitudes
    std := jsStd magnitudes
    max := jsMaxSpread magnitudes
    fftMean := jsFftMean (dftSpectrum (centeredList magnitudes))
    fftMax := jsFftMax (dftSpectrum (centeredList magnitudes)) }

/-- `extractFeatures` (lines 75-101): extract the magnitudes and compute the
feature record. -/
noncomputable def extractFeatures (buffer : List SensorData) : Features :=
  featuresOfMagnitudes (buffer.map fun d => d.total)

open Classical in
/-- The classifier if/else chain inside the `useEffect` hook
(lines 108-135).  The initial assignments `type = NO_METAL; conf = 0.85`
are dead (every branch of the chain overwrites both) and are omitted. -/
noncomputable def classify (f : Features) : PredictionResult :=
  if f.fftMax > 150 then
    if f.std > 20 then
      { metalType := MetalType.IRON, confidence := 0.94, features := f }
    else
      { metalType := MetalType.STAINLESS_STEEL, confidence := 0.89, features := f }
  else if f.std > 10 then
    { metalType := MetalType.IRON, confidence := 0.88, features := f }
  else if f.fftMax > 80 ∧ f.mean > 60 then
    { metalType := MetalType.ALUMINUM, confidence := 0.78, features := f }
  else
    { metalType := MetalType.NO_METAL,
      confidence := min 0.99 (1 - f.std / 50), features := f }

/-- One run of the classification `useEffect` (lines 103-136): if the window
holds fewer than `WINDOW_SIZE` samples it returns early and the previous
prediction is kept; otherwise the fresh prediction replaces it. -/
noncomputable def classifyStep (dataBuffer : List SensorData)
    (prev : PredictionResult) : PredictionResult :=
  if dataBuffer.length < WINDOW_SIZE then prev
  else classify (extractFeatures dataBuffer)

/-- The initial `currentPrediction` state (lines 24-28). -/
def initialPrediction : PredictionResult :=
  { metalType := MetalType.NO_METAL
    confidence := 0.0
    features := { mean := 0, std := 0, max := 0, fftMean := 0, fftMax := 0 } }

/-- The component state touched by the manual-analyze path:
the sample buffer and the stored prediction. -/
structure DetectorState where
  dataBuffer : List SensorData
  currentPrediction : PredictionResult

/-- The `disabled={dataBuffer.length < 10}` condition on the AI ANALYZE
button (line 425). -/
def analyzeDisabled (s : DetectorState) : Prop :=
  s.dataBuffer.length < 10

/-- `handleManualAnalyze` (lines 281-284): emit the stored prediction
together with the buffer magnitudes via `onAnalyze`.  It calls no state
setter, so the state component of the result is the input state. -/
def handleManualAnalyze (s : DetectorState) :
    (PredictionResult × List ℝ) × DetectorState :=
  ((s.currentPrediction, s.dataBuffer.map fun d => d.total), s)

/-- A JavaScript number as the classifier's comparisons see it: either NaN
or an (extended-)real value.  Infinities never arise in the classifier's
inputs for the claims below, so the non-NaN case carries a real. -/
inductive JsNum where
  | nan : JsNum
  | val : ℝ → JsNum

/-- JavaScript `>` on numbers: any comparison involving NaN is false. -/
def JsNum.gtJ : JsNum → JsNum → Prop
  | JsNum.val x, JsNum.val y => y < x
  | _, _ => False

/-- JavaScript subtraction: NaN propagates. -/
noncomputable def JsNum.subJ : JsNum → JsNum → JsNum
  | JsNum.val x, JsNum.val y => JsNum.val (x - y)
  | _, _ => JsNum.nan

/-- JavaScript division (no operand is 0 in the uses below): NaN propagates. -/
noncomputable def JsNum.divJ : JsNum → JsNum → JsNum
  | JsNum.val x, JsNum.val y => JsNum.val (x / y)
  | _, _ => JsNum.nan

/-- JavaScript `Math.min`: NaN propagates. -/
noncomputable def JsNum.minJ : JsNum → JsNum → JsNum
  | JsNum.val x, JsNum.val y => JsNum.val (min x y)
  | _, _ => JsNum.nan

/-- A feature vector whose entries follow JavaScript number semantics,
for the NaN fall-through behaviour of the classifier. -/
structure FeatureVectorJS where
  mean : JsNum
  std : JsNum
  max : JsNum
  fftMean : JsNum
  fftMax : JsNum

open Classical in
/-- The same classifier if/else chain (lines 108-135) read under JavaScript
floating-point comparison semantics: each threshold test uses `JsNum.gtJ`,
which is false whenever either operand is NaN, and the No-Metal confidence
`Math.min(0.99, 1 - std / 50)` uses the NaN-propagating operations. -/
noncomputable def classifyJS (f : FeatureVectorJS) : MetalType × JsNum :=
  if f.fftMax.gtJ (JsNum.val 150) then
    if f.std.gtJ (JsNum.val 20) then (MetalType.IRON, JsNum.val 0.94)
    else (MetalType.STAINLESS_STEEL, JsNum.val 0.89)
  else if f.std.gtJ (JsNum.val 10) then (MetalType.IRON, JsNum.val 0.88)
  else if f.fftMax.gtJ (JsNum.val 80) ∧ f.mean.gtJ (JsNum.val 60) then
    (MetalType.ALUMINUM, JsNum.val 0.78)
  else
    (MetalType.NO_METAL,
      JsNum.minJ (JsNum.val 0.99) ((JsNum.val 1).subJ (f.std.divJ (JsNum.val 50))))

/-! ### Spec-side definitions (claim C3)

These follow the wording of the specification, to be compared with the
definitions above that were translated from the source. -/

/-- Spec: `mean = (Σ m[i]) / N`. -/
noncomputable def specMean (m : List ℝ) : ℝ :=
  (∑ i in Finset.range m.length, m.getD i 0) / m.length

/-- Spec: `std = sqrt((Σ (m[i] - mean)^2) / N)`, population standard
deviation with no Bessel correction. -/
noncomputable def specStd (m : List ℝ) : ℝ :=
  Real.sqrt ((∑ i in Finset.range m.length, (m.getD i 0 - specMean m) ^ 2) /
    m.length)

/-- Spec: `real[k] = Σ_n c[n]·cos(-2π·k·n/N)` for the mean-centered series
`c[n] = m[n] - mean`. -/
noncomputable def specReal (m : List ℝ) (k : ℕ) : ℝ :=
  ∑ n in Finset.range m.length,
    (m.getD n 0 - specMean m) * Real.cos (-2 * Real.pi * k * n / m.length)

/-- Spec: `imag[k] = Σ_n c[n]·sin(-2π·k·n/N)`. -/
noncomputable def specImag (m : List ℝ) (k : ℕ) : ℝ :=
  ∑ n in Finset.range m.length,
    (m.getD n 0 - specMean m) * Real.sin (-2 * Real.pi * k * n / m.length)

/-- Spec: the spectrum consists of bins `k = 0 .. ⌊N/2⌋ - 1` with
`spectrum[k] = sqrt(real[k]² + imag[k]²)`. -/
noncomputable def specSpectrum (m : List ℝ) : List ℝ :=
  (List.range (m.length / 2)).map fun k =>
    Real.sqrt (specReal m k ^ 2 + specImag m k ^ 2)

/-- Spec: `fftMean = average(spectrum)`, 0 when the spectrum is empty. -/
noncomputable def specFftMean (m : List ℝ) : ℝ :=
  if specSpectrum m = [] then 0
  else (specSpectrum m).sum / (specSpectrum m).length

/-! ### Concrete windows used by claims C2 and C4 -/

/-- The magnitude sequence of a 50-sample window alternating between the
values `a` (even indices) and `b` (odd indices). -/
noncomputable def altMags (a b : ℝ) : List ℝ :=
  (List.range 50).map fun i => if i % 2 = 0 then a else b

/-- A concrete 50-sample window whose magnitudes alternate 40, 140, 40, ... -/
noncomputable def wAlt : List SensorData :=
  (List.range 50).map fun i =>
    { x := 0, y := 0, z := 0
      total := if i % 2 = 0 then 40 else 140
      timestamp := 0 }

/-- A neutral concrete sample used by witnesses. -/
noncomputable def sample0 : SensorData :=
  { x := 0, y := 0, z := 0, total := 0, timestamp := 0 }

/-- A concrete one-sample window used by the C3 witness. -/
noncomputable def w1 : List SensorData :=
  [{ x := 0, y := 0, z := 0, total := 5, timestamp := 0 }]

/-! ### Helper lemmas -/

lemma foldl_add_eq (l : List ℝ) : ∀ a : ℝ, l.foldl (· + ·) a = a + l.sum := by
  induction l with
  | nil => intro a; simp
  | cons x xs ih => intro a; simp [List.foldl_cons, ih, add_assoc]

lemma foldl_add_zero (l : List ℝ) : l.foldl (· + ·) 0 = l.sum := by
  rw [foldl_add_eq, zero_add]

lemma reduceNoInit_eq_sum {l : List ℝ} (h : l ≠ []) : reduceNoInit l = l.sum := by
  match l, h with
  | x :: xs, _ => simp [reduceNoInit, foldl_add_eq]

lemma sum_eq_range_getD (l : List ℝ) :
    l.sum = ∑ i in Finset.range l.length, l.getD i 0 := by
  induction l with
  | nil => simp
  | cons x xs ih =>
    rw [List.sum_cons, ih, List.length_cons, Finset.sum_range_succ']
    simp [List.getD]
    ring

lemma le_foldl_max (l : List ℝ) : ∀ a : ℝ, a ≤ l.foldl Max.max a := by
  induction l with
  | nil => intro a; exact le_refl a
  | cons x xs ih =>
    intro a
    exact le_trans (le_max_left a x) (ih (Max.max a x))

lemma mem_le_foldl_max {x : ℝ} (l : List ℝ) :
    ∀ a : ℝ, x ∈ l → x ≤ l.foldl Max.max a := by
  induction l with
  | nil => intro a h; cases h
  | cons y ys ih =>
    intro a h
    rcases List.mem_cons.mp h with rfl | hm
    · exact le_trans (le_max_right a x) (le_foldl_max ys _)
    · exact ih _ hm

lemma foldl_max_choice (l : List ℝ) :
    ∀ a : ℝ, l.foldl Max.max a = a ∨ l.foldl Max.max a ∈ l := by
  induction l with
  | nil => intro a; exact Or.inl rfl
  | cons y ys ih =>
    intro a
    rcases ih (Max.max a y) with h | h
    · rcases max_choice a y with hy | hy
      · exact Or.inl (by rw [List.foldl_cons, h, hy])
      · exact Or.inr (by rw [List.foldl_cons, h, hy]; exact List.mem_cons_self y ys)
    · exact Or.inr (List.mem_cons_of_mem y h)

lemma jsMaxSpread_le {x : ℝ} {l : List ℝ} (h : x ∈ l) : x ≤ jsMaxSpread l := by
  match l, h with
  | y :: ys, h =>
    simp only [jsMaxSpread]
    rcases List.mem_cons.mp h with rfl | hm
    · exact le_foldl_max ys x
    · exact mem_le_foldl_max ys y hm

lemma jsMaxSpread_mem {l : List ℝ} (h : l ≠ []) : jsMaxSpread l ∈ l := by
  match l, h with
  | y :: ys, _ =>
    simp only [jsMaxSpread]
    rcases foldl_max_choice ys y with h | h
    · rw [h]; exact List.mem_cons_self y ys
    · exact List.mem_cons_of_mem y h

lemma jsMaxSpread_const {l : List ℝ} {c : ℝ} (hne : l ≠ [])
    (h : ∀ x ∈ l, x = c) : jsMaxSpread l = c :=
  h (jsMaxSpread l) (jsMaxSpread_mem hne)

lemma getD_replicate_zero (n i : ℕ) : (List.replicate n (0 : ℝ)).getD i 0 = 0 := by
  induction n generalizing i with
  | zero => rfl
  | succ n ih =>
    cases i with
    | zero => rfl
    | succ i => exact ih i

lemma pushAll_eq (rs : List SensorData) :
    pushAll rs = rs.drop (rs.length - WINDOW_SIZE) := by
  unfold pushAll
  induction rs using List.reverseRecOn with
  | nil => rfl
  | append_singleton l a ih =>
    rw [List.foldl_append, List.foldl_cons, List.foldl_nil, ih]
    simp only [handleNewReading, WINDOW_SIZE]
    split_ifs with hcond
    · have hW : 50 ≤ l.length := by
        simp only [List.length_append, List.length_drop, List.length_cons,
          List.length_nil] at hcond
        omega
      have h1 : 1 ≤ (l.drop (l.length - 50)).length := by
        simp only [List.length_drop]; omega
      rw [List.drop_append_of_le_length h1, List.drop_drop]
      simp only [List.length_append, List.length_cons, List.length_nil]
      rw [List.drop_append_of_le_length
        (by omega : l.length + 1 - 50 ≤ l.length)]
      have h2 : l.length - 50 + 1 = l.length + 1 - 50 := by omega
      rw [h2]
    · have hW : l.length < 50 := by
        simp only [List.length_append, List.length_drop, List.length_cons,
          List.length_nil] at hcond
        omega
      rw [(by omega : l.length - 50 = 0), List.drop_zero,
        (by simp; omega : (l ++ [a]).length - 50 = 0), List.drop_zero]

/-! ### Claim theorems -/

/-- Claim C1: the classifier is an ordered priority list in which the first
matching rule wins: any feature vector with `fftMax = 200` and `std = 25`
classifies as Iron with confidence 0.94 via rule 1, never as Stainless
Steel, although rule 2's own condition (`fftMax > 150`) also matches. -/
theorem c1_rule_order (f : Features) (hmax : f.fftMax = 200)
    (hstd : f.std = 25) :
    (classify f).metalType = MetalType.IRON ∧
    (classify f).confidence = 0.94 ∧
    (classify f).metalType ≠ MetalType.STAINLESS_STEEL := by
  unfold classify
  rw [hmax, hstd]
  rw [if_pos (by norm_num : (200 : ℝ) > 150), if_pos (by norm_num : (25 : ℝ) > 20)]
  refine ⟨rfl, rfl, ?_⟩
  simp

/-- Witness for C1 at the concrete feature vector
`(mean, std, max, fftMean, fftMax) = (0, 25, 0, 0, 200)`. -/
theorem c1_rule_order_witness :
    (classify { mean := 0, std := 25, max := 0, fftMean := 0, fftMax := 200 }).metalType
      = MetalType.IRON ∧
    (classify { mean := 0, std := 25, max := 0, fftMean := 0, fftMax := 200 }).confidence
      = 0.94 ∧
    (classify { mean := 0, std := 25, max := 0, fftMean := 0, fftMax := 200 }).metalType
      ≠ MetalType.STAINLESS_STEEL :=
  c1_rule_order _ rfl rfl

/-- Claim C5: the sliding-window buffer is a strict FIFO of capacity 50:
after any sequence of pushes into an initially empty buffer its length never
exceeds 50, and pushing 51 samples leaves exactly the last 50 pushed samples
(samples 2..51) in their original relative order. -/
theorem c5_fifo_window (rs : List SensorData) :
    (pushAll rs).length ≤ WINDOW_SIZE ∧
    (rs.length = WINDOW_SIZE + 1 → pushAll rs = rs.drop 1) := by
  constructor
  · rw [pushAll_eq]
    simp only [List.length_drop, WINDOW_SIZE]
    omega
  · intro h
    rw [pushAll_eq, h]
    norm_num [WINDOW_SIZE]

/-- Witness for C5 at a concrete 51-sample sequence. -/
theorem c5_fifo_window_witness :
    (pushAll (List.replicate 51 sample0)).length ≤ WINDOW_SIZE ∧
    pushAll (List.replicate 51 sample0) = (List.replicate 51 sample0).drop 1 :=
  ⟨(c5_fifo_window _).1,
    (c5_fifo_window (List.replicate 51 sample0)).2 (by simp [WINDOW_SIZE])⟩

/-- Claim C6: every prediction the classifier produces has confidence in
[0, 1]; in particular the No-Metal branch's `min(0.99, 1 - std/50)` cannot
leave [0, 1] for a feature vector that reaches that branch, because that
branch is only reached when `std ≤ 10`.  This holds for every feature
vector, with no hypothesis at all. -/
theorem c6_confidence_in_unit_interval (f : Features) :
    0 ≤ (classify f).confidence ∧ (classify f).confidence ≤ 1 := by
  unfold classify
  split_ifs with h1 h2 h3 h4
  · exact ⟨by norm_num, by norm_num⟩
  · exact ⟨by norm_num, by norm_num⟩
  · exact ⟨by norm_num, by norm_num⟩
  · exact ⟨by norm_num, by norm_num⟩
  · have hstd : f.std ≤ 10 := le_of_not_lt h3
    constructor
    · have h5 : (0 : ℝ) ≤ 1 - f.std / 50 := by linarith
      exact le_min (by norm_num) h5
    · calc min 0.99 (1 - f.std / 50) ≤ 0.99 := min_le_left _ _
        _ ≤ 1 := by norm_num

/-- Claim C8: when the window holds fewer than 50 samples, the classify
effect returns early and the stored prediction is unchanged; in particular,
pushing 10 samples into a reset (empty) buffer yields a 10-sample window and
no new prediction. -/
theorem c8_insufficient_data (buf : List SensorData) (prev : PredictionResult)
    (h : buf.length < WINDOW_SIZE) (rs : List SensorData)
    (h10 : rs.length = 10) :
    classifyStep buf prev = prev ∧
    (pushAll rs).length = 10 ∧
    classifyStep (pushAll rs) prev = prev := by
  have hp : pushAll rs = rs := by
    rw [pushAll_eq, h10]
    norm_num [WINDOW_SIZE]
  refine ⟨?_, ?_, ?_⟩
  · unfold classifyStep
    rw [if_pos h]
  · rw [hp, h10]
  · rw [hp]
    unfold classifyStep
    rw [if_pos (by rw [h10]; norm_num [WINDOW_SIZE])]

/-- Witness for C8 at a concrete 5-sample window and a concrete sequence of
10 pushed samples. -/
theorem c8_insufficient_data_witness :
    classifyStep (List.replicate 5 sample0) initialPrediction = initialPrediction ∧
    (pushAll (List.replicate 10 sample0)).length = 10 ∧
    classifyStep (pushAll (List.replicate 10 sample0)) initialPrediction
      = initialPrediction :=
  c8_insufficient_data _ _ (by simp [WINDOW_SIZE]) _ (by simp)

/-- Claim C9: a feature vector whose entries are all NaN makes every
threshold comparison in the classifier false under JavaScript comparison
semantics, so it falls through every rule and the classifier labels it
No Metal via the unconditional else branch. -/
theorem c9_nan_falls_through (f : FeatureVectorJS) (h1 : f.mean = JsNum.nan)
    (h2 : f.std = JsNum.nan) (h3 : f.max = JsNum.nan)
    (h4 : f.fftMean = JsNum.nan) (h5 : f.fftMax = JsNum.nan) :
    ¬ f.fftMax.gtJ (JsNum.val 150) ∧
    ¬ f.std.gtJ (JsNum.val 20) ∧
    ¬ f.std.gtJ (JsNum.val 10) ∧
    ¬ (f.fftMax.gtJ (JsNum.val 80) ∧ f.mean.gtJ (JsNum.val 60)) ∧
    (classifyJS f).1 = MetalType.NO_METAL := by
  refine ⟨?_, ?_, ?_, ?_, ?_⟩
  · rw [h5]; exact fun h => h
  · rw [h2]; exact fun h => h
  · rw [h2]; exact fun h => h
  · rw [h5]; exact fun h => h.1
  · unfold classifyJS
    rw [if_neg (by rw [h5]; exact fun h => h),
      if_neg (by rw [h2]; exact fun h => h),
      if_neg (by rw [h5]; exact fun h => h.1)]

/-- Witness for C9 at the all-NaN feature vector. -/
theorem c9_nan_falls_through_witness :
    ¬ JsNum.gtJ (FeatureVectorJS.fftMax
        ⟨JsNum.nan, JsNum.nan, JsNum.nan, JsNum.nan, JsNum.nan⟩) (JsNum.val 150) ∧
    ¬ JsNum.gtJ (FeatureVectorJS.std
        ⟨JsNum.nan, JsNum.nan, JsNum.nan, JsNum.nan, JsNum.nan⟩) (JsNum.val 20) ∧
    ¬ JsNum.gtJ (FeatureVectorJS.std
        ⟨JsNum.nan, JsNum.nan, JsNum.nan, JsNum.nan, JsNum.nan⟩) (JsNum.val 10) ∧
    ¬ (JsNum.gtJ (FeatureVectorJS.fftMax
        ⟨JsNum.nan, JsNum.nan, JsNum.nan, JsNum.nan, JsNum.nan⟩) (JsNum.val 80) ∧
      JsNum.gtJ (FeatureVectorJS.mean
        ⟨JsNum.nan, JsNum.nan, JsNum.nan, JsNum.nan, JsNum.nan⟩) (JsNum.val 60)) ∧
    (classifyJS ⟨JsNum.nan, JsNum.nan, JsNum.nan, JsNum.nan, JsNum.nan⟩).1
      = MetalType.NO_METAL :=
  c9_nan_falls_through _ rfl rfl rfl rfl rfl

/-- Claim C10: with at least 10 buffered samples the manual analyze action
is enabled; it emits the stored prediction unchanged (initially the default
No Metal / 0.0) paired with the current buffer magnitudes, recomputes
nothing, and leaves the whole component state unchanged. -/
theorem c10_manual_analyze_frame (s : DetectorState)
    (h : 10 ≤ s.dataBuffer.length) :
    ¬ analyzeDisabled s ∧
    (handleManualAnalyze s).1.1 = s.currentPrediction ∧
    (handleManualAnalyze s).1.2 = s.dataBuffer.map (fun d => d.total) ∧
    (handleManualAnalyze s).2 = s ∧
    initialPrediction.metalType = MetalType.NO_METAL ∧
    initialPrediction.confidence = 0 := by
  refine ⟨?_, rfl, rfl, rfl, rfl, by norm_num [initialPrediction]⟩
  unfold analyzeDisabled
  omega

/-- Witness for C10 at a concrete 10-sample state holding the default
prediction. -/
theorem c10_manual_analyze_frame_witness :
    ¬ analyzeDisabled ⟨List.replicate 10 sample0, initialPrediction⟩ ∧
    (handleManualAnalyze ⟨List.replicate 10 sample0, initialPrediction⟩).1.1
      = initialPrediction ∧
    (handleManualAnalyze ⟨List.replicate 10 sample0, initialPrediction⟩).1.2
      = (List.replicate 10 sample0).map (fun d => d.total) ∧
    (handleManualAnalyze ⟨List.replicate 10 sample0, initialPrediction⟩).2
      = ⟨List.replicate 10 sample0, initialPrediction⟩ ∧
    initialPrediction.metalType = MetalType.NO_METAL ∧
    initialPrediction.confidence = 0 :=
  c10_manual_analyze_frame ⟨List.replicate 10 sample0, initialPrediction⟩
    (by simp)

lemma jsFft_bounds (S : List ℝ) (hnn : ∀ x ∈ S, 0 ≤ x) :
    0 ≤ jsFftMean S ∧ jsFftMean S ≤ jsFftMax S := by
  unfold jsFftMean jsFftMax
  split_ifs with h
  · constructor
    · apply div_nonneg
      · rw [foldl_add_zero]
        exact List.sum_nonneg hnn
      · exact Nat.cast_nonneg _
    · rw [foldl_add_zero, div_le_iff (by exact_mod_cast h)]
      calc S.sum ≤ S.length • jsMaxSpread S :=
            List.sum_le_card_nsmul S _ (fun x hx => jsMaxSpread_le hx)
        _ = jsMaxSpread S * S.length := by rw [nsmul_eq_mul]; ring
  · exact ⟨le_refl 0, le_refl 0⟩

lemma dftSpectrum_nonneg {c : List ℝ} {x : ℝ} (hx : x ∈ dftSpectrum c) :
    0 ≤ x := by
  simp only [dftSpectrum, List.mem_map] at hx
  obtain ⟨k, _, hkx⟩ := hx
  rw [← hkx]
  exact Real.sqrt_nonneg _

/-- Claim C7: for every window the extracted features satisfy
`fftMax ≥ fftMean ≥ 0`: the DFT magnitude spectrum is pointwise
non-negative, so its mean is non-negative and bounded by its max. -/
theorem c7_fft_bounds (buffer : List SensorData) :
    0 ≤ (extractFeatures buffer).fftMean ∧
    (extractFeatures buffer).fftMean ≤ (extractFeatures buffer).fftMax :=
  jsFft_bounds _ (fun _ hx => dftSpectrum_nonneg hx)

/-- Claim C4: a full 50-sample window of constant magnitude `c` yields
`std = 0`, `max = c`, `fftMean = 0`, `fftMax = 0`, and the classifier
labels it No Metal with confidence `min(0.99, 1 - 0/50) = 0.99`. -/
theorem c4_constant_window (c : ℝ) (w : List SensorData) (hlen : w.length = 50)
    (hc : ∀ d ∈ w, d.total = c) :
    (extractFeatures w).std = 0 ∧ (extractFeatures w).max = c ∧
    (extractFeatures w).fftMean = 0 ∧ (extractFeatures w).fftMax = 0 ∧
    (classify (extractFeatures w)).metalType = MetalType.NO_METAL ∧
    (classify (extractFeatures w)).confidence = 0.99 := by
  have hm : w.map (fun d => d.total) = List.replicate 50 c := by
    apply List.eq_replicate_iff.mpr
    refine ⟨by simp [hlen], ?_⟩
    intro b hb
    obtain ⟨d, hd, rfl⟩ := List.mem_map.mp hb
    exact hc d hd
  have hEF : extractFeatures w = featuresOfMagnitudes (List.replicate 50 c) := by
    unfold extractFeatures
    rw [hm]
  have hmean : jsMean (List.replicate 50 c) = c := by
    unfold jsMean
    rw [foldl_add_zero, List.sum_replicate, List.length_replicate, nsmul_eq_mul]
    push_cast
    exact mul_div_cancel_left₀ c (by norm_num)
  have hstd : jsStd (List.replicate 50 c) = 0 := by
    have h1 : (List.replicate 50 c).map
        (fun x => (x - jsMean (List.replicate 50 c)) ^ 2) = List.replicate 50 0 := by
      rw [hmean, List.map_replicate]
      norm_num
    unfold jsStd
    rw [h1, reduceNoInit_eq_sum (by simp), List.sum_replicate, smul_zero,
      zero_div, Real.sqrt_zero]
  have hmax : jsMaxSpread (List.replicate 50 c) = c :=
    jsMaxSpread_const (by simp) (fun x hx => List.eq_of_mem_replicate hx)
  have hcent : centeredList (List.replicate 50 c) = List.replicate 50 0 := by
    unfold centeredList
    rw [hmean, List.map_replicate]
    norm_num
  have hspec : dftSpectrum (List.replicate 50 (0 : ℝ)) = List.replicate 25 0 := by
    unfold dftSpectrum
    simp only [List.length_replicate, Nat.cast_ofNat, getD_replicate_zero,
      zero_mul, Finset.sum_const_zero, mul_zero, add_zero, Real.sqrt_zero]
    show List.map (fun k => (0 : ℝ)) (List.range (50 / 2)) = List.replicate 25 0
    rw [List.map_const', List.length_range]
  have hfmean : jsFftMean (List.replicate 25 (0 : ℝ)) = 0 := by
    unfold jsFftMean
    rw [if_pos (by simp), foldl_add_zero, List.sum_replicate, smul_zero, zero_div]
  have hfmax : jsFftMax (List.replicate 25 (0 : ℝ)) = 0 := by
    unfold jsFftMax
    rw [if_pos (by simp),
      jsMaxSpread_const (by simp) (fun x hx => List.eq_of_mem_replicate hx)]
  have hPstd : (extractFeatures w).std = 0 := by rw [hEF]; exact hstd
  have hPmax : (extractFeatures w).max = c := by rw [hEF]; exact hmax
  have hPfmean : (extractFeatures w).fftMean = 0 := by
    rw [hEF]
    show jsFftMean (dftSpectrum (centeredList (List.replicate 50 c))) = 0
    rw [hcent, hspec]
    exact hfmean
  have hPfmax : (extractFeatures w).fftMax = 0 := by
    rw [hEF]
    show jsFftMax (dftSpectrum (centeredList (List.replicate 50 c))) = 0
    rw [hcent, hspec]
    exact hfmax
  have hcl : classify (extractFeatures w) =
      { metalType := MetalType.NO_METAL,
        confidence := min 0.99 (1 - (0 : ℝ) / 50),
        features := extractFeatures w } := by
    unfold classify
    rw [hPfmax, hPstd]
    rw [if_neg (by norm_num : ¬ (0 : ℝ) > 150),
      if_neg (by norm_num : ¬ (0 : ℝ) > 10),
      if_neg (show ¬ ((0 : ℝ) > 80 ∧ (extractFeatures w).mean > 60) from
        fun h => absurd h.1 (by norm_num))]
  refine ⟨hPstd, hPmax, hPfmean, hPfmax, ?_, ?_⟩
  · rw [hcl]
  · rw [hcl]
    show min 0.99 (1 - (0 : ℝ) / 50) = 0.99
    rw [show (1 : ℝ) - 0 / 50 = 1 by norm_num]
    exact min_eq_left (by norm_num)

/-- Witness for C4 at the concrete constant window of 50 samples of
magnitude 7. -/
theorem c4_constant_window_witness :
    (extractFeatures (List.replicate 50 ⟨0, 0, 0, 7, 0⟩)).std = 0 ∧
    (extractFeatures (List.replicate 50 ⟨0, 0, 0, 7, 0⟩)).max = 7 ∧
    (extractFeatures (List.replicate 50 ⟨0, 0, 0, 7, 0⟩)).fftMean = 0 ∧
    (extractFeatures (List.replicate 50 ⟨0, 0, 0, 7, 0⟩)).fftMax = 0 ∧
    (classify (extractFeatures (List.replicate 50 ⟨0, 0, 0, 7, 0⟩))).metalType
      = MetalType.NO_METAL ∧
    (classify (extractFeatures (List.replicate 50 ⟨0, 0, 0, 7, 0⟩))).confidence
      = 0.99 :=
  c4_constant_window 7 _ (by simp)
    (fun d hd => by rw [List.eq_of_mem_replicate hd])

lemma getD_map_lt (f : ℝ → ℝ) (l : List ℝ) :
    ∀ i, i < l.length → (l.map f).getD i 0 = f (l.getD i 0) := by
  induction l with
  | nil => intro i h; exact absurd h (Nat.not_lt_zero i)
  | cons x xs ih =>
    intro i h
    cases i with
    | zero => rfl
    | succ i => exact ih i (Nat.lt_of_succ_lt_succ h)

lemma jsMean_eq (m : List ℝ) : jsMean m = specMean m := by
  unfold jsMean specMean
  rw [foldl_add_zero, sum_eq_range_getD]

lemma jsStd_eq {m : List ℝ} (h : m ≠ []) : jsStd m = specStd m := by
  unfold jsStd specStd
  rw [jsMean_eq]
  congr 1
  congr 1
  rw [reduceNoInit_eq_sum (fun hm => h (List.map_eq_nil.mp hm)),
    sum_eq_range_getD]
  simp only [List.length_map]
  apply Finset.sum_congr rfl
  intro i hi
  rw [getD_map_lt _ _ i (List.mem_range.mp hi)]

lemma dftSpectrum_centered_eq (m : List ℝ) :
    dftSpectrum (centeredList m) = specSpectrum m := by
  unfold dftSpectrum specSpectrum centeredList
  simp only [List.length_map]
  apply List.map_congr_left
  intro k _
  have hr : (∑ n in Finset.range m.length,
      (List.map (fun x => x - jsMean m) m).getD n 0 *
        Real.cos (-2 * Real.pi * k * n / m.length)) = specReal m k := by
    unfold specReal
    apply Finset.sum_congr rfl
    intro n hn
    rw [getD_map_lt _ _ n (List.mem_range.mp hn), jsMean_eq]
  have hi : (∑ n in Finset.range m.length,
      (List.map (fun x => x - jsMean m) m).getD n 0 *
        Real.sin (-2 * Real.pi * k * n / m.length)) = specImag m k := by
    unfold specImag
    apply Finset.sum_congr rfl
    intro n hn
    rw [getD_map_lt _ _ n (List.mem_range.mp hn), jsMean_eq]
  show Real.sqrt _ = Real.sqrt _
  rw [hr, hi]
  congr 1
  ring

lemma jsFftMean_eq (S : List ℝ) :
    jsFftMean S = if S = [] then 0 else S.sum / S.length := by
  by_cases hS : S = []
  · subst hS
    simp [jsFftMean]
  · have hpos : 0 < S.length := List.length_pos.mpr hS
    unfold jsFftMean
    rw [if_pos hpos, if_neg hS, foldl_add_zero]

/-- Claim C3: the feature extractor computes exactly the statistics written
in the specification: `mean = (Σ m[i])/N`; `std` is the population standard
deviation; the spectrum consists of bins `k = 0..⌊N/2⌋-1` of the direct DFT
of the mean-centered series with `spectrum[k] = sqrt(real[k]² + imag[k]²)`;
`fftMean` is the mean of that spectrum and `fftMax` is its maximum (a member
of the spectrum bounding all members), and both are 0 when the spectrum is
empty (N < 2). -/
theorem c3_extractor_matches_spec (buffer : List SensorData)
    (h : buffer ≠ []) :
    (extractFeatures buffer).mean = specMean (buffer.map fun d => d.total) ∧
    (extractFeatures buffer).std = specStd (buffer.map fun d => d.total) ∧
    dftSpectrum (centeredList (buffer.map fun d => d.total))
      = specSpectrum (buffer.map fun d => d.total) ∧
    (extractFeatures buffer).fftMean
      = specFftMean (buffer.map fun d => d.total) ∧
    (specSpectrum (buffer.map fun d => d.total) = [] →
      (extractFeatures buffer).fftMax = 0) ∧
    (specSpectrum (buffer.map fun d => d.total) ≠ [] →
      (extractFeatures buffer).fftMax
          ∈ specSpectrum (buffer.map fun d => d.total) ∧
        ∀ x ∈ specSpectrum (buffer.map fun d => d.total),
          x ≤ (extractFeatures buffer).fftMax) ∧
    (buffer.length < 2 →
      (extractFeatures buffer).fftMean = 0 ∧
      (extractFeatures buffer).fftMax = 0) := by
  have hmne : (buffer.map fun d => d.total) ≠ [] :=
    fun hm => h (List.map_eq_nil.mp hm)
  have hmean : (extractFeatures buffer).mean
      = specMean (buffer.map fun d => d.total) := jsMean_eq _
  have hstd : (extractFeatures buffer).std
      = specStd (buffer.map fun d => d.total) := jsStd_eq hmne
  have hspec := dftSpectrum_centered_eq (buffer.map fun d => d.total)
  have hfmean : (extractFeatures buffer).fftMean
      = specFftMean (buffer.map fun d => d.total) := by
    show jsFftMean (dftSpectrum (centeredList (buffer.map fun d => d.total)))
      = specFftMean (buffer.map fun d => d.total)
    rw [hspec, jsFftMean_eq]
    rfl
  have hfmaxE : (specSpectrum (buffer.map fun d => d.total) = [] →
      (extractFeatures buffer).fftMax = 0) := by
    intro hE
    show jsFftMax (dftSpectrum (centeredList (buffer.map fun d => d.total))) = 0
    rw [hspec, hE]
    rfl
  have hfmaxN : (specSpectrum (buffer.map fun d => d.total) ≠ [] →
      (extractFeatures buffer).fftMax
          ∈ specSpectrum (buffer.map fun d => d.total) ∧
        ∀ x ∈ specSpectrum (buffer.map fun d => d.total),
          x ≤ (extractFeatures buffer).fftMax) := by
    intro hN
    have hFx : (extractFeatures buffer).fftMax
        = jsMaxSpread (specSpectrum (buffer.map fun d => d.total)) := by
      show jsFftMax (dftSpectrum (centeredList (buffer.map fun d => d.total)))
        = _
      rw [hspec]
      unfold jsFftMax
      rw [if_pos (List.length_pos.mpr hN)]
    rw [hFx]
    exact ⟨jsMaxSpread_mem hN, fun x hx => jsMaxSpread_le hx⟩
  refine ⟨hmean, hstd, hspec, hfmean, hfmaxE, hfmaxN, ?_⟩
  intro h2
  have hlen : (buffer.map fun d => d.total).length / 2 = 0 := by
    simp only [List.length_map]
    omega
  have hempty : specSpectrum (buffer.map fun d => d.total) = [] := by
    unfold specSpectrum
    rw [hlen]
    rfl
  constructor
  · rw [hfmean]
    unfold specFftMean
    rw [if_pos hempty]
  · exact hfmaxE hempty

/-- Witness for C3 at the concrete one-sample window `w1` (N = 1 < 2, so
the spectrum is empty and both FFT features are 0). -/
theorem c3_extractor_matches_spec_witness :
    (extractFeatures w1).mean = specMean (w1.map fun d => d.total) ∧
    (extractFeatures w1).std = specStd (w1.map fun d => d.total) ∧
    dftSpectrum (centeredList (w1.map fun d => d.total))
      = specSpectrum (w1.map fun d => d.total) ∧
    (extractFeatures w1).fftMean = specFftMean (w1.map fun d => d.total) ∧
    (specSpectrum (w1.map fun d => d.total) = [] →
      (extractFeatures w1).fftMax = 0) ∧
    (specSpectrum (w1.map fun d => d.total) ≠ [] →
      (extractFeatures w1).fftMax ∈ specSpectrum (w1.map fun d => d.total) ∧
        ∀ x ∈ specSpectrum (w1.map fun d => d.total),
          x ≤ (extractFeatures w1).fftMax) ∧
    (w1.length < 2 →
      (extractFeatures w1).fftMean = 0 ∧
      (extractFeatures w1).fftMax = 0) :=
  c3_extractor_matches_spec w1 (by simp [w1])

/-! ### The alternating 40/140 window (claim C2)

The alternating component of a 50-sample square wave sits at the Nyquist
frequency k = 25, which the code's bin range `k < ⌊50/2⌋ = 25` excludes, so
every computed DFT bin of the mean-centered alternating series is exactly 0.
The lemmas below prove this via the geometric sum of the 50th root of unity
`z = -exp(-2πik/50)`. -/

lemma getD_map_range (F : ℕ → ℝ) {N i : ℕ} (h : i < N) :
    ((List.range N).map F).getD i 0 = F i := by
  rw [List.getD_eq_getD_get?, List.get?_map, List.get?_range h]
  rfl

lemma sum_map_range (F : ℕ → ℝ) (N : ℕ) :
    ((List.range N).map F).sum = ∑ n in Finset.range N, F n := by
  induction N with
  | zero => rfl
  | succ n ih =>
    rw [List.range_succ, List.map_append, List.sum_append,
      Finset.sum_range_succ, ih]
    simp

lemma alt_val (a b : ℝ) (hab : a + b = 180) (n : ℕ) :
    (if n % 2 = 0 then a else b) = 90 + (a - 90) * (-1 : ℝ) ^ n := by
  rcases Nat.even_or_odd n with he | ho
  · rw [if_pos (Nat.even_iff.mp he), he.neg_one_pow]
    ring
  · rw [if_neg (by rw [Nat.odd_iff.mp ho]; norm_num), ho.neg_one_pow]
    linarith

lemma altUnit_ne_one (k : ℕ) (hk : k < 25) :
    (-1 : ℂ) * Complex.exp (((-2 * Real.pi * (k : ℝ) / 50 : ℝ) : ℂ) * Complex.I)
      ≠ 1 := by
  intro h
  have h2 : Complex.exp (((-2 * Real.pi * (k : ℝ) / 50 : ℝ) : ℂ) * Complex.I)
      = -1 := by
    linear_combination -h
  have h3 : Complex.exp (((-2 * Real.pi * (k : ℝ) / 50 : ℝ) : ℂ) * Complex.I
      - Real.pi * Complex.I) = 1 := by
    rw [Complex.exp_sub, h2, Complex.exp_pi_mul_I]
    norm_num
  obtain ⟨m, hm⟩ := Complex.exp_eq_one_iff.mp h3
  have him := congrArg Complex.im hm
  simp only [Complex.sub_im, Complex.mul_im, Complex.ofReal_re,
    Complex.ofReal_im, Complex.I_im, Complex.I_re, Complex.intCast_re,
    Complex.intCast_im, Complex.mul_re, Complex.add_im, Complex.re_ofNat,
    Complex.im_ofNat, mul_zero, mul_one, zero_mul, add_zero, zero_add,
    sub_zero, zero_sub] at him
  have hπ : (0 : ℝ) < Real.pi := Real.pi_pos
  have hkey : -(k : ℝ) - 25 = 50 * m := by
    have h4 : Real.pi * (-(k : ℝ) / 25 - 1) = Real.pi * (2 * m) := by
      linear_combination him
    have h5 := mul_left_cancel₀ (ne_of_gt hπ) h4
    linarith
  have hz : (-(k : ℤ) - 25) = 50 * m := by exact_mod_cast hkey
  omega

lemma altUnit_pow_50 (k : ℕ) :
    ((-1 : ℂ) * Complex.exp (((-2 * Real.pi * (k : ℝ) / 50 : ℝ) : ℂ)
      * Complex.I)) ^ 50 = 1 := by
  rw [mul_pow, show ((-1 : ℂ)) ^ 50 = 1 by norm_num, one_mul,
    ← Complex.exp_nat_mul]
  rw [show ((50 : ℕ) : ℂ) * (((-2 * Real.pi * (k : ℝ) / 50 : ℝ) : ℂ)
      * Complex.I) = ((-(k : ℤ) : ℤ) : ℂ) * (2 * (Real.pi : ℂ) * Complex.I) by
    push_cast; ring]
  exact Complex.exp_int_mul_two_pi_mul_I _

lemma altUnit_sum (k : ℕ) (hk : k < 25) :
    ∑ n in Finset.range 50,
      ((-1 : ℂ) * Complex.exp (((-2 * Real.pi * (k : ℝ) / 50 : ℝ) : ℂ)
        * Complex.I)) ^ n = 0 := by
  rw [geom_sum_eq (altUnit_ne_one k hk) 50, altUnit_pow_50 k]
  simp

lemma altUnit_pow_re (k n : ℕ) :
    (((-1 : ℂ) * Complex.exp (((-2 * Real.pi * (k : ℝ) / 50 : ℝ) : ℂ)
      * Complex.I)) ^ n).re
      = (-1 : ℝ) ^ n * Real.cos (-2 * Real.pi * k * n / 50) := by
  rw [mul_pow, ← Complex.exp_nat_mul]
  rw [show ((n : ℕ) : ℂ) * (((-2 * Real.pi * (k : ℝ) / 50 : ℝ) : ℂ)
      * Complex.I) = ((-2 * Real.pi * k * n / 50 : ℝ) : ℂ) * Complex.I by
    push_cast; ring]
  rw [show ((-1 : ℂ)) ^ n = (((-1 : ℝ) ^ n : ℝ) : ℂ) by push_cast; ring]
  rw [Complex.re_ofReal_mul, Complex.exp_ofReal_mul_I_re]

lemma altUnit_pow_im (k n : ℕ) :
    (((-1 : ℂ) * Complex.exp (((-2 * Real.pi * (k : ℝ) / 50 : ℝ) : ℂ)
      * Complex.I)) ^ n).im
      = (-1 : ℝ) ^ n * Real.sin (-2 * Real.pi * k * n / 50) := by
  rw [mul_pow, ← Complex.exp_nat_mul]
  rw [show ((n : ℕ) : ℂ) * (((-2 * Real.pi * (k : ℝ) / 50 : ℝ) : ℂ)
      * Complex.I) = ((-2 * Real.pi * k * n / 50 : ℝ) : ℂ) * Complex.I by
    push_cast; ring]
  rw [show ((-1 : ℂ)) ^ n = (((-1 : ℝ) ^ n : ℝ) : ℂ) by push_cast; ring]
  rw [Complex.im_ofReal_mul, Complex.exp_ofReal_mul_I_im]

lemma alt_cos_sum (k : ℕ) (hk : k < 25) :
    ∑ n in Finset.range 50,
      (-1 : ℝ) ^ n * Real.cos (-2 * Real.pi * k * n / 50) = 0 := by
  calc ∑ n in Finset.range 50,
        (-1 : ℝ) ^ n * Real.cos (-2 * Real.pi * k * n / 50)
      = ∑ n in Finset.range 50,
          (((-1 : ℂ) * Complex.exp (((-2 * Real.pi * (k : ℝ) / 50 : ℝ) : ℂ)
            * Complex.I)) ^ n).re :=
        Finset.sum_congr rfl (fun n _ => (altUnit_pow_re k n).symm)
    _ = (∑ n in Finset.range 50,
          ((-1 : ℂ) * Complex.exp (((-2 * Real.pi * (k : ℝ) / 50 : ℝ) : ℂ)
            * Complex.I)) ^ n).re := by rw [Complex.re_sum]
    _ = 0 := by rw [altUnit_sum k hk]; rfl

lemma alt_sin_sum (k : ℕ) (hk : k < 25) :
    ∑ n in Finset.range 50,
      (-1 : ℝ) ^ n * Real.sin (-2 * Real.pi * k * n / 50) = 0 := by
  calc ∑ n in Finset.range 50,
        (-1 : ℝ) ^ n * Real.sin (-2 * Real.pi * k * n / 50)
      = ∑ n in Finset.range 50,
          (((-1 : ℂ) * Complex.exp (((-2 * Real.pi * (k : ℝ) / 50 : ℝ) : ℂ)
            * Complex.I)) ^ n).im :=
        Finset.sum_congr rfl (fun n _ => (altUnit_pow_im k n).symm)
    _ = (∑ n in Finset.range 50,
          ((-1 : ℂ) * Complex.exp (((-2 * Real.pi * (k : ℝ) / 50 : ℝ) : ℂ)
            * Complex.I)) ^ n).im := by rw [Complex.im_sum]
    _ = 0 := by rw [altUnit_sum k hk]; rfl

lemma alt_bin_cos_zero (s : ℝ) (k : ℕ) (hk : k < 25) (c : List ℝ)
    (hc : ∀ n, n < 50 → c.getD n 0 = s * (-1 : ℝ) ^ n) :
    ∑ n in Finset.range 50,
      c.getD n 0 * Real.cos (-2 * Real.pi * k * n / 50) = 0 := by
  calc ∑ n in Finset.range 50,
        c.getD n 0 * Real.cos (-2 * Real.pi * k * n / 50)
      = ∑ n in Finset.range 50,
          s * ((-1 : ℝ) ^ n * Real.cos (-2 * Real.pi * k * n / 50)) :=
        Finset.sum_congr rfl
          (fun n hn => by rw [hc n (Finset.mem_range.mp hn)]; ring)
    _ = s * ∑ n in Finset.range 50,
          (-1 : ℝ) ^ n * Real.cos (-2 * Real.pi * k * n / 50) := by
        rw [Finset.mul_sum]
    _ = 0 := by rw [alt_cos_sum k hk, mul_zero]

lemma alt_bin_sin_zero (s : ℝ) (k : ℕ) (hk : k < 25) (c : List ℝ)
    (hc : ∀ n, n < 50 → c.getD n 0 = s * (-1 : ℝ) ^ n) :
    ∑ n in Finset.range 50,
      c.getD n 0 * Real.sin (-2 * Real.pi * k * n / 50) = 0 := by
  calc ∑ n in Finset.range 50,
        c.getD n 0 * Real.sin (-2 * Real.pi * k * n / 50)
      = ∑ n in Finset.range 50,
          s * ((-1 : ℝ) ^ n * Real.sin (-2 * Real.pi * k * n / 50)) :=
        Finset.sum_congr rfl
          (fun n hn => by rw [hc n (Finset.mem_range.mp hn)]; ring)
    _ = s * ∑ n in Finset.range 50,
          (-1 : ℝ) ^ n * Real.sin (-2 * Real.pi * k * n / 50) := by
        rw [Finset.mul_sum]
    _ = 0 := by rw [alt_sin_sum k hk, mul_zero]

lemma altMags_length (a b : ℝ) : (altMags a b).length = 50 := by
  simp [altMags]

lemma altMags_getD (a b : ℝ) {n : ℕ} (hn : n < 50) :
    (altMags a b).getD n 0 = if n % 2 = 0 then a else b := by
  unfold altMags
  exact getD_map_range _ hn

lemma altMags_sum (a b : ℝ) (hab : a + b = 180) : (altMags a b).sum = 4500 := by
  unfold altMags
  rw [sum_map_range]
  rw [Finset.sum_congr rfl (fun n _ => alt_val a b hab n)]
  rw [Finset.sum_add_distrib, Finset.sum_const, ← Finset.mul_sum,
    neg_one_geom_sum, if_pos (by decide : Even 50)]
  simp [Finset.card_range, nsmul_eq_mul]
  norm_num

lemma altMean (a b : ℝ) (hab : a + b = 180) : jsMean (altMags a b) = 90 := by
  unfold jsMean
  rw [foldl_add_zero, altMags_sum a b hab, altMags_length]
  norm_num

lemma altCentered_length (a b : ℝ) :
    (centeredList (altMags a b)).length = 50 := by
  simp [centeredList, altMags]

lemma altCentered_getD (a b : ℝ) (hab : a + b = 180) {n : ℕ} (hn : n < 50) :
    (centeredList (altMags a b)).getD n 0 = (a - 90) * (-1 : ℝ) ^ n := by
  unfold centeredList
  rw [getD_map_lt _ _ n (by rw [altMags_length]; exact hn), altMean a b hab,
    altMags_getD a b hn, alt_val a b hab n]
  ring

lemma alt_spectrum (a b : ℝ) (hab : a + b = 180) :
    dftSpectrum (centeredList (altMags a b)) = List.replicate 25 0 := by
  unfold dftSpectrum
  simp only [altCentered_length, Nat.cast_ofNat]
  trans (List.range (50 / 2)).map (fun (_ : ℕ) => (0 : ℝ))
  · apply List.map_congr_left
    intro k hk
    have hk25 : k < 25 := by
      have := List.mem_range.mp hk
      omega
    show Real.sqrt _ = 0
    rw [alt_bin_cos_zero (a - 90) k hk25 _
        (fun n hn => altCentered_getD a b hab hn),
      alt_bin_sin_zero (a - 90) k hk25 _
        (fun n hn => altCentered_getD a b hab hn)]
    norm_num
  · rw [List.map_const', List.length_range]

lemma alt_std (a b : ℝ) (hab : a + b = 180) (hsq : (a - 90) ^ 2 = 2500) :
    jsStd (altMags a b) = 50 := by
  unfold jsStd
  have hmap : (altMags a b).map (fun x => (x - jsMean (altMags a b)) ^ 2)
      = (List.range 50).map
          (fun i => ((if i % 2 = 0 then a else b) - 90) ^ 2) := by
    rw [altMean a b hab]
    unfold altMags
    rw [List.map_map]
    rfl
  rw [hmap, reduceNoInit_eq_sum (by simp), sum_map_range]
  have hterm : ∀ n ∈ Finset.range 50,
      ((if n % 2 = 0 then a else b) - 90) ^ 2 = 2500 := by
    intro n _
    rw [alt_val a b hab n]
    have h1 : (90 + (a - 90) * (-1 : ℝ) ^ n - 90) ^ 2
        = (a - 90) ^ 2 * ((-1 : ℝ) ^ n) ^ 2 := by ring
    have h2 : ((-1 : ℝ) ^ n) ^ 2 = 1 := by
      rw [← pow_mul, mul_comm n 2, pow_mul]
      norm_num
    rw [h1, h2, hsq, mul_one]
  rw [Finset.sum_congr rfl hterm, Finset.sum_const, Finset.card_range,
    altMags_length, nsmul_eq_mul]
  simp only [Nat.cast_ofNat]
  rw [show (50 : ℝ) * 2500 / 50 = 50 ^ 2 by norm_num]
  exact Real.sqrt_sq (by norm_num)

lemma alt_pipeline (w : List SensorData) (a b : ℝ) (hab : a + b = 180)
    (hsq : (a - 90) ^ 2 = 2500)
    (hw : w.map (fun d => d.total) = altMags a b) :
    (extractFeatures w).std = 50 ∧ (extractFeatures w).fftMax = 0 ∧
    classify (extractFeatures w) =
      { metalType := MetalType.IRON, confidence := 0.88,
        features := extractFeatures w } := by
  have hEF : extractFeatures w = featuresOfMagnitudes (altMags a b) := by
    unfold extractFeatures
    rw [hw]
  have hstd : (extractFeatures w).std = 50 := by
    rw [hEF]
    exact alt_std a b hab hsq
  have hfmax : (extractFeatures w).fftMax = 0 := by
    rw [hEF]
    show jsFftMax (dftSpectrum (centeredList (altMags a b))) = 0
    rw [alt_spectrum a b hab]
    unfold jsFftMax
    rw [if_pos (by simp),
      jsMaxSpread_const (by simp) (fun x hx => List.eq_of_mem_replicate hx)]
  refine ⟨hstd, hfmax, ?_⟩
  unfold classify
  rw [hfmax, hstd]
  rw [if_neg (by norm_num : ¬ (0 : ℝ) > 150), if_pos (by norm_num : (50 : ℝ) > 10)]

/-- Counterexample for C2: the concrete 50-sample window alternating
40, 140, ... has `std = 50 > 20` as the claim says, but its alternating
component sits at the excluded Nyquist bin k = 25, so `fftMax = 0` (not
"high") and the pipeline classifies it as Iron with confidence 0.88 via
rule 3 (`std > 10`), not 0.94 via rule 1. -/
theorem c2_alternating_window_counterexample :
    (extractFeatures wAlt).std > 20 ∧
    (extractFeatures wAlt).fftMax = 0 ∧
    (classify (extractFeatures wAlt)).metalType = MetalType.IRON ∧
    (classify (extractFeatures wAlt)).confidence ≠ 0.94 ∧
    (classify (extractFeatures wAlt)).confidence = 0.88 := by
  have hw : wAlt.map (fun d => d.total) = altMags 40 140 := by
    unfold wAlt altMags
    rw [List.map_map]
    rfl
  have h := alt_pipeline wAlt 40 140 (by norm_num) (by norm_num) hw
  refine ⟨by rw [h.1]; norm_num, h.2.1, ?_, ?_, ?_⟩
  · rw [h.2.2]
  · rw [h.2.2]
    norm_num
  · rw [h.2.2]

/-- Claim C2 (amended): for every 50-sample window whose magnitudes
alternate between 40 and 140 (either phase), the extracted features have
`std = 50 > 20` but `fftMax = 0` — the alternating component lies at the
Nyquist bin k = N/2 = 25, which the computed bins 0..24 exclude — and the
extract-then-classify pipeline produces the label Iron with confidence 0.88
via rule 3 (`std > 10`), not 0.94. -/
theorem c2_alternating_window_amended (w : List SensorData) (a b : ℝ)
    (hphase : (a = 40 ∧ b = 140) ∨ (a = 140 ∧ b = 40))
    (hw : w.map (fun d => d.total) = altMags a b) :
    (extractFeatures w).std > 20 ∧
    (extractFeatures w).std = 50 ∧
    (extractFeatures w).fftMax = 0 ∧
    (classify (extractFeatures w)).metalType = MetalType.IRON ∧
    (classify (extractFeatures w)).confidence = 0.88 := by
  have hab : a + b = 180 := by
    rcases hphase with ⟨rfl, rfl⟩ | ⟨rfl, rfl⟩ <;> norm_num
  have hsq : (a - 90) ^ 2 = 2500 := by
    rcases hphase with ⟨rfl, rfl⟩ | ⟨rfl, rfl⟩ <;> norm_num
  have h := alt_pipeline w a b hab hsq hw
  exact ⟨by rw [h.1]; norm_num, h.1, h.2.1, by rw [h.2.2], by rw [h.2.2]⟩

/-- Witness for the amended C2 at the concrete window `wAlt`. -/
theorem c2_alternating_window_amended_witness :
    (extractFeatures wAlt).std > 20 ∧
    (extractFeatures wAlt).std = 50 ∧
    (extractFeatures wAlt).fftMax = 0 ∧
    (classify (extractFeatures wAlt)).metalType = MetalType.IRON ∧
    (classify (extractFeatures wAlt)).confidence = 0.88 :=
  c2_alternating_window_amended wAlt 40 140 (Or.inl ⟨rfl, rfl⟩)
    (by unfold wAlt altMags; rw [List.map_map]; rfl)

end Neurodetect
